import Mathlib

/-!
Verification of the ADI port-ownership and validation layer
(`src/devices/vdml_adi.c`).

The embedding models the file's operations as explicit state passing over
an `AdiState` record.  The hardware access facade (`claim_port`,
`return_port`, the `vexDeviceAdi*` primitives) lives outside this file's
sources; following the specification it is modelled as: a configuration
array and a time-indexed input stream of raw values, with every value
read and value write recorded in logs, claim/release always succeeding in
the sequential model, and a successful facade transaction returning 1.
C machine integers are modelled as `Int`/`Nat` with explicit reduction
modulo 2^32 where the source uses `uint32_t` arithmetic.
-/

/-- Modelled from the spec: the distinguished sentinel failure value
returned by every failing operation (`PROS_ERR`, defined as `INT32_MAX`
in headers outside the given sources). -/
def PROS_ERR : Int := 2147483647

/-- Modelled from the spec: the invalid-argument last-error
classification (`EINVAL` from `errno.h`, outside the given sources). -/
def EINVAL : Nat := 22

/-- Modelled from the spec: the number of ADI ports (`NUM_ADI_PORTS`,
declared in a header outside the given sources; the spec fixes eight
logical ports). -/
def NUM_ADI_PORTS : Nat := 8

/-- Constant `NUM_MAX_TWOWIRE` from the source: four two-wire slots. -/
def NUM_MAX_TWOWIRE : Nat := 4

/-- Constant `ADI_MOTOR_MAX_SPEED` from the source. -/
def ADI_MOTOR_MAX_SPEED : Int := 127

/-- Constant `ADI_MOTOR_MIN_SPEED` from the source. -/
def ADI_MOTOR_MIN_SPEED : Int := -128

/-- Modelled from the spec: the `pinMode` mode enumerators
{input, output, input-analog, output-analog} (`INPUT`, `OUTPUT`,
`INPUT_ANALOG`, `OUTPUT_ANALOG` from a compatibility header outside the
given sources, with their conventional values 0, 1, 2, 3). -/
def INPUT : Nat := 0

/-- Modelled from the spec: see `INPUT`. -/
def OUTPUT : Nat := 1

/-- Modelled from the spec: see `INPUT`. -/
def INPUT_ANALOG : Nat := 2

/-- Modelled from the spec: see `INPUT`. -/
def OUTPUT_ANALOG : Nat := 3

/-- One more than the largest `uint32_t`; `uint32_t` arithmetic is
arithmetic modulo this constant. -/
def UINT32_MOD : Nat := 4294967296

/-- Modelled from the spec: the per-port configuration enumeration
(`adi_port_config_e_t`, declared in a header outside the given sources;
the spec lists the variants). -/
inductive adi_port_config_e
  | E_ADI_ANALOG_IN
  | E_ADI_ANALOG_OUT
  | E_ADI_DIGITAL_IN
  | E_ADI_DIGITAL_OUT
  | E_ADI_SMART_BUTTON
  | E_ADI_SMART_POT
  | E_ADI_LEGACY_BUTTON
  | E_ADI_LEGACY_POT
  | E_ADI_LEGACY_LINE_SENSOR
  | E_ADI_LEGACY_LIGHT_SENSOR
  | E_ADI_LEGACY_GYRO
  | E_ADI_LEGACY_ACCELEROMETER
  | E_ADI_LEGACY_SERVO
  | E_ADI_LEGACY_PWM
  | E_ADI_LEGACY_ENCODER
  | E_ADI_LEGACY_ULTRASONIC
  | E_ADI_TYPE_UNDEFINED
deriving DecidableEq

open adi_port_config_e

/-- The process-wide state the file operates on: the configuration
registry and raw-value stream behind the hardware facade, the auxiliary
arrays `analog_registry` (only its `calib` field is ever used by the
operations in the file) and `encoder_reversed`, the `errno`
classification, and logs of every hardware value read and write.
`value i t` is the raw value the facade delivers for 0-based index `i`
at the `t`-th hardware value read; `time` counts value reads performed.
The auxiliary arrays are modelled as total functions over `Int` indices
because the source indexes them with unchecked raw arithmetic; the
in-bounds questions are stated separately. -/
structure AdiState where
  config : Nat → adi_port_config_e
  value : Nat → Nat → Int
  time : Nat
  analog_calib : Int → Int
  encoder_reversed : Int → Bool
  errno : Nat
  valueGets : List Nat
  valueSets : List (Nat × Int)

/-- Record the invalid-argument classification (`errno = EINVAL`). -/
def setEinval (s : AdiState) : AdiState := { s with errno := EINVAL }

/-- Build an initial state from a configuration map and a value stream:
time zero, zeroed auxiliary arrays, `errno = 0`, empty hardware logs. -/
def mkState (cfg : Nat → adi_port_config_e) (val : Nat → Nat → Int) : AdiState :=
  { config := cfg, value := val, time := 0, analog_calib := fun _ => 0,
    encoder_reversed := fun _ => false, errno := 0, valueGets := [], valueSets := [] }

/-- The `transform_adi_port` macro: a letter in `'a'..'h'` (97..104) or
`'A'..'H'` (65..72) is mapped to 0..7 by subtracting the base letter,
anything else is decremented (1-based numeric form); the result must lie
in [0,7], otherwise the macro sets `errno = EINVAL` and makes the
enclosing function return `PROS_ERR` (rendered here as `none`; each use
site pairs `none` with `setEinval`). -/
def transform_adi_port (port : Int) : Option Int :=
  let p : Int :=
    if 97 ≤ port ∧ port ≤ 104 then port - 97
    else if 65 ≤ port ∧ port ≤ 72 then port - 65
    else port - 1
  if 7 < p ∨ p < 0 then none else some p

/-- Function `adi_port_config_set`: translate the port, then write the
configuration through the facade and return 1.  The facade claim is
modelled as always succeeding. -/
def adi_port_config_set (port : Int) (type : adi_port_config_e) (s : AdiState) :
    Int × AdiState :=
  match transform_adi_port port with
  | none => (PROS_ERR, setEinval s)
  | some p =>
      (1, { s with config := fun i => if i = p.toNat then type else s.config i })

/-- Function `adi_port_config_get`: translate the port and read the
configuration.  The C function returns the enumeration, or `PROS_ERR`
cast to the enumeration type on a translation failure; that sentinel is
distinct from every real variant and is rendered as `none`. -/
def adi_port_config_get (port : Int) (s : AdiState) :
    Option adi_port_config_e × AdiState :=
  match transform_adi_port port with
  | none => (none, setEinval s)
  | some p => (some (s.config p.toNat), s)

/-- Function `adi_value_set`: translate the port, record the hardware value write
and return 1. -/
def adi_value_set (port : Int) (value : Int) (s : AdiState) : Int × AdiState :=
  match transform_adi_port port with
  | none => (PROS_ERR, setEinval s)
  | some p => (1, { s with valueSets := s.valueSets ++ [(p.toNat, value)] })

/-- Function `adi_value_get`: translate the port, deliver the stream value for
the current read instant, advance the read clock and record the read. -/
def adi_value_get (port : Int) (s : AdiState) : Int × AdiState :=
  match transform_adi_port port with
  | none => (PROS_ERR, setEinval s)
  | some p =>
      (s.value p.toNat s.time,
       { s with time := s.time + 1, valueGets := s.valueGets ++ [p.toNat] })

/-- The allowed-configuration set of the `validate_analog` macro. -/
def analog_config_ok : Option adi_port_config_e → Bool
  | some E_ADI_ANALOG_IN => true
  | some E_ADI_LEGACY_POT => true
  | some E_ADI_LEGACY_LINE_SENSOR => true
  | some E_ADI_LEGACY_LIGHT_SENSOR => true
  | some E_ADI_LEGACY_ACCELEROMETER => true
  | some E_ADI_SMART_POT => true
  | _ => false

/-- The allowed-configuration set of the `validate_digital_in` macro. -/
def digital_in_config_ok : Option adi_port_config_e → Bool
  | some E_ADI_DIGITAL_IN => true
  | some E_ADI_LEGACY_BUTTON => true
  | some E_ADI_SMART_BUTTON => true
  | _ => false

/-- The allowed-configuration set of the `validate_motor` macro. -/
def motor_config_ok : Option adi_port_config_e → Bool
  | some E_ADI_LEGACY_PWM => true
  | some E_ADI_LEGACY_SERVO => true
  | _ => false

/-- Outcome of the `validate_twowire` macro, separating its three
failure exits because only the non-adjacent one sets `errno`. -/
inductive twowire_result
  | ok (port : Int)
  | err_nonadjacent
  | err_equal
  | err_parity
deriving DecidableEq

/-- The `validate_twowire` macro on the raw (untranslated) identifiers:
fail if `abs(port_top - port_bottom) > 1` (this exit sets `errno`);
take `port` as the smaller of the two, failing if they are equal; fail
if `port % 2` (C truncated remainder) is zero; otherwise expose `port`
as the canonical port of the pair. -/
def validate_twowire (port_top port_bottom : Int) : twowire_result :=
  if 1 < (port_top - port_bottom).natAbs then .err_nonadjacent
  else if port_top < port_bottom then
    if port_top.tmod 2 = 0 then .err_parity else .ok port_top
  else if port_bottom < port_top then
    if port_bottom.tmod 2 = 0 then .err_parity else .ok port_bottom
  else .err_equal

/-- Conversion of an `int32_t` value to `uint32_t`: reduction modulo
2^32 (nonnegative representative). -/
def u32ofInt (v : Int) : Nat := (v % (UINT32_MOD : Int)).toNat

/-- One iteration step of the calibration loop, iterated by fuel:
read the raw value, convert it to `uint32_t` and accumulate modulo
2^32 (`total += adi_value_get(port)` with `uint32_t total`). -/
def calib_loop (port : Int) : Nat → Nat → AdiState → Nat × AdiState
  | 0, total, s => (total, s)
  | Nat.succ n, total, s =>
      let r := adi_value_get port s
      calib_loop port n ((total + u32ofInt r.1) % UINT32_MOD) r.2

/-- Function `adi_analog_calibrate`: validate the analog family (setting `errno`
on mismatch), accumulate 512 samples into a `uint32_t` sum, store
`(int32_t)((total + 16) >> 5)` into `analog_registry[port - 1].calib`
(the index is the raw identifier minus one), and return
`(int32_t)((total + 256) >> 9)`.  Both shifted values are below 2^31 so
the `int32_t` casts are value-preserving. -/
def adi_analog_calibrate (port : Int) (s : AdiState) : Int × AdiState :=
  let r := adi_port_config_get port s
  if analog_config_ok r.1 then
    let l := calib_loop port 512 0 r.2
    let calib : Int := (((l.1 + 16) % UINT32_MOD / 32 : Nat) : Int)
    ((((l.1 + 256) % UINT32_MOD / 512 : Nat) : Int),
     { l.2 with analog_calib := fun i => if i = port - 1 then calib else l.2.analog_calib i })
  else (PROS_ERR, setEinval r.2)

/-- Function `adi_analog_read`: validate the analog family, then read the raw
value. -/
def adi_analog_read (port : Int) (s : AdiState) : Int × AdiState :=
  let r := adi_port_config_get port s
  if analog_config_ok r.1 then adi_value_get port r.2
  else (PROS_ERR, setEinval r.2)

/-- Function `adi_analog_read_calibrated`: validate the analog family, then
return the raw value minus `calib >> 4` (arithmetic shift, i.e. floor
division by 16); the registry index is again the raw identifier minus
one. -/
def adi_analog_read_calibrated (port : Int) (s : AdiState) : Int × AdiState :=
  let r := adi_port_config_get port s
  if analog_config_ok r.1 then
    let v := adi_value_get port r.2
    (v.1 - Int.fdiv (s.analog_calib (port - 1)) 16, v.2)
  else (PROS_ERR, setEinval r.2)

/-- Function `adi_analog_read_calibrated_HR`: validate the analog family, then
return `(raw << 4) - calib`. -/
def adi_analog_read_calibrated_HR (port : Int) (s : AdiState) : Int × AdiState :=
  let r := adi_port_config_get port s
  if analog_config_ok r.1 then
    let v := adi_value_get port r.2
    (v.1 * 16 - s.analog_calib (port - 1), v.2)
  else (PROS_ERR, setEinval r.2)

/-- Function `adi_digital_read`: validate the digital-in family, then read. -/
def adi_digital_read (port : Int) (s : AdiState) : Int × AdiState :=
  let r := adi_port_config_get port s
  if digital_in_config_ok r.1 then adi_value_get port r.2
  else (PROS_ERR, setEinval r.2)

/-- Function `adi_digital_write`: `validate_type` against digital-out (this
validator returns `PROS_ERR` without touching `errno`), then write the
boolean as 0/1. -/
def adi_digital_write (port : Int) (value : Bool) (s : AdiState) : Int × AdiState :=
  let r := adi_port_config_get port s
  if r.1 = some E_ADI_DIGITAL_OUT then adi_value_set port (if value then 1 else 0) r.2
  else (PROS_ERR, r.2)

/-- Function `adi_pin_mode`: dispatch the mode to the corresponding
configuration write, discarding that write's result, and return 1; an
unrecognized mode sets `errno = EINVAL` and returns `PROS_ERR`. -/
def adi_pin_mode (port : Int) (mode : Nat) (s : AdiState) : Int × AdiState :=
  if mode = INPUT then (1, (adi_port_config_set port E_ADI_DIGITAL_IN s).2)
  else if mode = OUTPUT then (1, (adi_port_config_set port E_ADI_DIGITAL_OUT s).2)
  else if mode = INPUT_ANALOG then (1, (adi_port_config_set port E_ADI_ANALOG_IN s).2)
  else if mode = OUTPUT_ANALOG then (1, (adi_port_config_set port E_ADI_ANALOG_OUT s).2)
  else (PROS_ERR, setEinval s)

/-- The clamp of `adi_motor_set`: speeds above `ADI_MOTOR_MAX_SPEED`
become 127, speeds below `ADI_MOTOR_MIN_SPEED` become -128. -/
def clamp_speed (speed : Int) : Int :=
  if ADI_MOTOR_MAX_SPEED < speed then ADI_MOTOR_MAX_SPEED
  else if speed < ADI_MOTOR_MIN_SPEED then ADI_MOTOR_MIN_SPEED
  else speed

/-- Function `adi_motor_set`: validate the motor family (setting `errno` on
mismatch), clamp the speed, write it, and return `adi_value_set`'s
result. -/
def adi_motor_set (port : Int) (speed : Int) (s : AdiState) : Int × AdiState :=
  let r := adi_port_config_get port s
  if motor_config_ok r.1 then adi_value_set port (clamp_speed speed) r.2
  else (PROS_ERR, setEinval r.2)

/-- Function `adi_motor_get`: validate the motor family, then return the raw
value minus `ADI_MOTOR_MAX_SPEED`. -/
def adi_motor_get (port : Int) (s : AdiState) : Int × AdiState :=
  let r := adi_port_config_get port s
  if motor_config_ok r.1 then
    let v := adi_value_get port r.2
    (v.1 - ADI_MOTOR_MAX_SPEED, v.2)
  else (PROS_ERR, setEinval r.2)

/-- Function `adi_motor_stop`: validate the motor family, then write 0. -/
def adi_motor_stop (port : Int) (s : AdiState) : Int × AdiState :=
  let r := adi_port_config_get port s
  if motor_config_ok r.1 then adi_value_set port 0 r.2
  else (PROS_ERR, setEinval r.2)

/-- Function `adi_encoder_init`: run `validate_twowire` on the raw identifiers
(only the non-adjacent failure sets `errno`), record the reversal flag
at slot `(port - 1) / 2` (C truncated division) for the canonical
port, configure that port as a legacy encoder, and return
`adi_port_config_set`'s result. -/
def adi_encoder_init (port_top port_bottom : Int) (reverse : Bool) (s : AdiState) :
    Int × AdiState :=
  match validate_twowire port_top port_bottom with
  | .err_nonadjacent => (PROS_ERR, setEinval s)
  | .err_equal => (PROS_ERR, s)
  | .err_parity => (PROS_ERR, s)
  | .ok port =>
      let s1 := { s with encoder_reversed :=
        fun i => if i = (port - 1).tdiv 2 then reverse else s.encoder_reversed i }
      adi_port_config_set port E_ADI_LEGACY_ENCODER s1

/-- Function `adi_encoder_get`: `validate_type` against legacy-encoder on the
handle (no `errno` on mismatch), then read the raw value, negated when
the slot's reversal flag is set. -/
def adi_encoder_get (enc : Int) (s : AdiState) : Int × AdiState :=
  let r := adi_port_config_get enc s
  if r.1 = some E_ADI_LEGACY_ENCODER then
    if r.2.encoder_reversed ((enc - 1).tdiv 2) then
      let v := adi_value_get enc r.2
      (-v.1, v.2)
    else adi_value_get enc r.2
  else (PROS_ERR, r.2)

/-- Function `adi_encoder_reset`: `validate_type` against legacy-encoder, then
write 0. -/
def adi_encoder_reset (enc : Int) (s : AdiState) : Int × AdiState :=
  let r := adi_port_config_get enc s
  if r.1 = some E_ADI_LEGACY_ENCODER then adi_value_set enc 0 r.2
  else (PROS_ERR, r.2)

/-- Function `adi_encoder_shutdown`: `validate_type` against legacy-encoder,
then set the configuration to undefined. -/
def adi_encoder_shutdown (enc : Int) (s : AdiState) : Int × AdiState :=
  let r := adi_port_config_get enc s
  if r.1 = some E_ADI_LEGACY_ENCODER then
    adi_port_config_set enc E_ADI_TYPE_UNDEFINED r.2
  else (PROS_ERR, r.2)

/-- Function `adi_ultrasonic_init`: run `validate_twowire` on the raw
identifiers, additionally require the echo port to be the canonical
port (returning `PROS_ERR` without `errno` otherwise), configure the
echo port as legacy-ultrasonic and return `adi_port_config_set`'s
result. -/
def adi_ultrasonic_init (port_echo port_ping : Int) (s : AdiState) : Int × AdiState :=
  match validate_twowire port_echo port_ping with
  | .err_nonadjacent => (PROS_ERR, setEinval s)
  | .err_equal => (PROS_ERR, s)
  | .err_parity => (PROS_ERR, s)
  | .ok port =>
      if port ≠ port_echo then (PROS_ERR, s)
      else adi_port_config_set port_echo E_ADI_LEGACY_ULTRASONIC s

/-- Function `adi_ultrasonic_get`: `validate_type` against legacy-ultrasonic
(no `errno` on mismatch), then read the raw value. -/
def adi_ultrasonic_get (ult : Int) (s : AdiState) : Int × AdiState :=
  let r := adi_port_config_get ult s
  if r.1 = some E_ADI_LEGACY_ULTRASONIC then adi_value_get ult r.2
  else (PROS_ERR, r.2)

/-- Function `adi_ultrasonic_shutdown`: `validate_type` against
legacy-ultrasonic, then set the configuration to undefined. -/
def adi_ultrasonic_shutdown (ult : Int) (s : AdiState) : Int × AdiState :=
  let r := adi_port_config_get ult s
  if r.1 = some E_ADI_LEGACY_ULTRASONIC then
    adi_port_config_set ult E_ADI_TYPE_UNDEFINED r.2
  else (PROS_ERR, r.2)

/-- An invocation of one of the file's public device operations,
with its arguments. -/
inductive adi_op
  | op_analog_calibrate (port : Int)
  | op_analog_read (port : Int)
  | op_analog_read_calibrated (port : Int)
  | op_analog_read_calibrated_HR (port : Int)
  | op_digital_read (port : Int)
  | op_digital_write (port : Int) (value : Bool)
  | op_pin_mode (port : Int) (mode : Nat)
  | op_motor_set (port : Int) (speed : Int)
  | op_motor_get (port : Int)
  | op_motor_stop (port : Int)
  | op_encoder_init (port_top port_bottom : Int) (reverse : Bool)
  | op_encoder_get (enc : Int)
  | op_encoder_reset (enc : Int)
  | op_encoder_shutdown (enc : Int)
  | op_ultrasonic_init (port_echo port_ping : Int)
  | op_ultrasonic_get (ult : Int)
  | op_ultrasonic_shutdown (ult : Int)

open adi_op

/-- Dispatch an operation invocation to its implementation. -/
def run_op : adi_op → AdiState → Int × AdiState
  | op_analog_calibrate port, s => adi_analog_calibrate port s
  | op_analog_read port, s => adi_analog_read port s
  | op_analog_read_calibrated port, s => adi_analog_read_calibrated port s
  | op_analog_read_calibrated_HR port, s => adi_analog_read_calibrated_HR port s
  | op_digital_read port, s => adi_digital_read port s
  | op_digital_write port value, s => adi_digital_write port value s
  | op_pin_mode port mode, s => adi_pin_mode port mode s
  | op_motor_set port speed, s => adi_motor_set port speed s
  | op_motor_get port, s => adi_motor_get port s
  | op_motor_stop port, s => adi_motor_stop port s
  | op_encoder_init pt pb reverse, s => adi_encoder_init pt pb reverse s
  | op_encoder_get enc, s => adi_encoder_get enc s
  | op_encoder_reset enc, s => adi_encoder_reset enc s
  | op_encoder_shutdown enc, s => adi_encoder_shutdown enc s
  | op_ultrasonic_init pe pp, s => adi_ultrasonic_init pe pp s
  | op_ultrasonic_get ult, s => adi_ultrasonic_get ult s
  | op_ultrasonic_shutdown ult, s => adi_ultrasonic_shutdown ult s

/-- Whether the operation's validation (its leading configuration
check, its two-wire resolution, or `adi_pin_mode`'s mode check)
rejects the invocation in the given state. -/
def op_validation_fails : adi_op → AdiState → Bool
  | op_analog_calibrate port, s => !analog_config_ok (adi_port_config_get port s).1
  | op_analog_read port, s => !analog_config_ok (adi_port_config_get port s).1
  | op_analog_read_calibrated port, s => !analog_config_ok (adi_port_config_get port s).1
  | op_analog_read_calibrated_HR port, s => !analog_config_ok (adi_port_config_get port s).1
  | op_digital_read port, s => !digital_in_config_ok (adi_port_config_get port s).1
  | op_digital_write port _, s =>
      !((adi_port_config_get port s).1 = some E_ADI_DIGITAL_OUT : Bool)
  | op_pin_mode _ mode, _ =>
      !(mode = INPUT ∨ mode = OUTPUT ∨ mode = INPUT_ANALOG ∨ mode = OUTPUT_ANALOG : Bool)
  | op_motor_set port _, s => !motor_config_ok (adi_port_config_get port s).1
  | op_motor_get port, s => !motor_config_ok (adi_port_config_get port s).1
  | op_motor_stop port, s => !motor_config_ok (adi_port_config_get port s).1
  | op_encoder_init pt pb _, _ =>
      match validate_twowire pt pb with
      | .ok _ => false
      | _ => true
  | op_encoder_get enc, s =>
      !((adi_port_config_get enc s).1 = some E_ADI_LEGACY_ENCODER : Bool)
  | op_encoder_reset enc, s =>
      !((adi_port_config_get enc s).1 = some E_ADI_LEGACY_ENCODER : Bool)
  | op_encoder_shutdown enc, s =>
      !((adi_port_config_get enc s).1 = some E_ADI_LEGACY_ENCODER : Bool)
  | op_ultrasonic_init pe pp, _ =>
      match validate_twowire pe pp with
      | .ok port => !(port = pe : Bool)
      | _ => true
  | op_ultrasonic_get ult, s =>
      !((adi_port_config_get ult s).1 = some E_ADI_LEGACY_ULTRASONIC : Bool)
  | op_ultrasonic_shutdown ult, s =>
      !((adi_port_config_get ult s).1 = some E_ADI_LEGACY_ULTRASONIC : Bool)

/-- A state with every port unconfigured and every raw read
delivering 42. -/
def sBase : AdiState :=
  mkState (fun _ => E_ADI_TYPE_UNDEFINED) (fun _ _ => 42)

/-- A state with hardware index 0 (ports 1 and `'a'`) configured as
analog-in and every raw read delivering 5. -/
def sAnalog : AdiState :=
  mkState (fun i => if i = 0 then E_ADI_ANALOG_IN else E_ADI_TYPE_UNDEFINED)
    (fun _ _ => 5)

/-- A state with hardware index 0 configured as analog-in and every
raw read delivering -1. -/
def sNegStream : AdiState :=
  mkState (fun i => if i = 0 then E_ADI_ANALOG_IN else E_ADI_TYPE_UNDEFINED)
    (fun _ _ => -1)

/-- A state with hardware index 0 configured as a legacy PWM motor. -/
def sMotor : AdiState :=
  mkState (fun i => if i = 0 then E_ADI_LEGACY_PWM else E_ADI_TYPE_UNDEFINED)
    (fun _ _ => 0)

/-- A state with every port unconfigured and every raw read
delivering 55. -/
def sVal55 : AdiState :=
  mkState (fun _ => E_ADI_TYPE_UNDEFINED) (fun _ _ => 55)

/-- Helper: the C parity test `port % 2 == 0` (truncated remainder)
detects exactly the even integers. -/
theorem tmod_two_eq_zero_iff_even (x : Int) : x.tmod 2 = 0 ↔ Even x := by
  rw [← Int.dvd_iff_tmod_eq_zero]
  exact even_iff_two_dvd.symm

/-- Helper: recording `EINVAL` twice equals recording it once. -/
theorem setEinval_setEinval (s : AdiState) : setEinval (setEinval s) = setEinval s := rfl

/-- Helper: a configuration read either leaves the state unchanged or
only records `EINVAL` (on a port-translation failure). -/
theorem config_get_snd (p : Int) (t : AdiState) :
    (adi_port_config_get p t).2 = t ∨ (adi_port_config_get p t).2 = setEinval t := by
  unfold adi_port_config_get
  cases transform_adi_port p <;> simp

/-- Helper: over a constant raw-value stream the calibration loop
accumulates `n` copies of the converted sample modulo 2^32 and touches
nothing but the read clock and the read log. -/
theorem calib_loop_const (port idx V : Int) (hT : transform_adi_port port = some idx)
    (n : Nat) : ∀ (total : Nat) (s : AdiState), (∀ t, s.value idx.toNat t = V) →
    total < UINT32_MOD →
    (calib_loop port n total s).1 = (total + n * u32ofInt V) % UINT32_MOD ∧
    ((calib_loop port n total s).2).analog_calib = s.analog_calib ∧
    ((calib_loop port n total s).2).config = s.config ∧
    ((calib_loop port n total s).2).value = s.value ∧
    ((calib_loop port n total s).2).errno = s.errno ∧
    ((calib_loop port n total s).2).encoder_reversed = s.encoder_reversed := by
  induction n with
  | zero =>
      intro total s hV hlt
      simp [calib_loop, Nat.mod_eq_of_lt hlt]
  | succ n ih =>
      intro total s hV hlt
      have hstep : calib_loop port (Nat.succ n) total s =
          calib_loop port n ((total + u32ofInt V) % UINT32_MOD)
            (AdiState.mk s.config s.value (s.time + 1) s.analog_calib s.encoder_reversed
              s.errno (s.valueGets ++ [idx.toNat]) s.valueSets) := by
        simp [calib_loop, adi_value_get, hT, hV]
      have hlt2 : (total + u32ofInt V) % UINT32_MOD < UINT32_MOD :=
        Nat.mod_lt _ (by decide)
      have key := ih ((total + u32ofInt V) % UINT32_MOD)
        (AdiState.mk s.config s.value (s.time + 1) s.analog_calib s.encoder_reversed
          s.errno (s.valueGets ++ [idx.toNat]) s.valueSets) hV hlt2
      rw [hstep]
      refine ⟨?_, key.2.1, key.2.2.1, key.2.2.2.1, key.2.2.2.2.1, key.2.2.2.2.2⟩
      rw [key.1, Nat.mod_add_mod, Nat.succ_mul]
      congr 1
      ring

set_option maxRecDepth 8192 in
/-- Helper: `adi_analog_calibrate` over a constant raw-value stream:
closed forms for the returned baseline and the stored calibration, and
preservation of all other registry entries. -/
theorem adi_analog_calibrate_const (port idx V : Int) (s : AdiState)
    (hT : transform_adi_port port = some idx)
    (hC : analog_config_ok (some (s.config idx.toNat)) = true)
    (hV : ∀ t, s.value idx.toNat t = V) :
    (adi_analog_calibrate port s).1 =
      (((512 * u32ofInt V % UINT32_MOD + 256) % UINT32_MOD / 512 : Nat) : Int) ∧
    ((adi_analog_calibrate port s).2).analog_calib (port - 1) =
      (((512 * u32ofInt V % UINT32_MOD + 16) % UINT32_MOD / 32 : Nat) : Int) ∧
    (∀ i, i ≠ port - 1 →
      ((adi_analog_calibrate port s).2).analog_calib i = s.analog_calib i) := by
  have hg : adi_port_config_get port s = (some (s.config idx.toNat), s) := by
    simp [adi_port_config_get, hT]
  have hcl := calib_loop_const port idx V hT 512 0 s hV (by decide)
  simp only [adi_analog_calibrate, hg, hC, if_true]
  rw [hcl.1]
  refine ⟨by simp, ?_, ?_⟩
  · simp [hcl.2.1]
  · intro i hi
    simp [hcl.2.1, hi]

/-- C1: code evaluation at the failing input.  On the accepted pair
(3,4) the canonical port is 3, but `adi_encoder_init` returns
`adi_port_config_set`'s success code 1 as the handle; the handle 1 is
not usable as the key for a subsequent get (it fails), while the
canonical port 3 is.  `adi_ultrasonic_init` returns 1 on (3,4)
likewise. -/
theorem spec_c1_encoder_handle :
    (adi_encoder_init 3 4 false sBase).1 = 1 ∧
    validate_twowire 3 4 = .ok 3 ∧
    (1 : Int) ≠ 3 ∧
    (adi_encoder_get 1 (adi_encoder_init 3 4 false sBase).2).1 = PROS_ERR ∧
    (adi_encoder_get 3 (adi_encoder_init 3 4 false sBase).2).1 = 42 ∧
    (adi_ultrasonic_init 3 4 sBase).1 = 1 :=
  ⟨by decide, by decide, by decide, by decide, by decide, by decide⟩

/-- C2 counterexample: the claim predicts that encoderInit(1,2) fails
because the canonical index after 0-based address translation (0) is
even; the code performs no translation in `validate_twowire`, checks
parity on the raw minimum 1, and accepts the pair. -/
theorem spec_c2_counterexample :
    transform_adi_port 1 = some 0 ∧ transform_adi_port 2 = some 1 ∧
    Even (min (0 : Int) 1) ∧
    validate_twowire 1 2 = .ok 1 ∧
    (adi_encoder_init 1 2 false sBase).1 ≠ PROS_ERR :=
  ⟨by decide, by decide, ⟨0, by norm_num⟩, by decide, by decide⟩

/-- C2 (amended): two-wire resolution succeeds exactly when the raw
identifiers are adjacent, distinct, and their minimum (untranslated) is
odd, and then the canonical port is that minimum; in particular (2,2)
fails as equal, (1,3) fails as non-adjacent, and (1,2) is accepted with
canonical port 1. -/
theorem spec_c2_twowire_resolution :
    (∀ a b c : Int, validate_twowire a b = .ok c ↔
      ((a - b).natAbs = 1 ∧ ¬ Even (min a b) ∧ c = min a b)) ∧
    validate_twowire 2 2 = .err_equal ∧
    validate_twowire 1 3 = .err_nonadjacent ∧
    validate_twowire 1 2 = .ok 1 := by
  refine ⟨?_, by decide, by decide, by decide⟩
  intro a b c
  constructor
  · intro hok
    unfold validate_twowire at hok
    split_ifs at hok with h1 h2 h3 h4 h5
    · cases hok
      refine ⟨by omega, ?_, (min_eq_left h2.le).symm⟩
      rw [min_eq_left h2.le]
      exact fun hE => h3 ((tmod_two_eq_zero_iff_even a).mpr hE)
    · cases hok
      refine ⟨by omega, ?_, (min_eq_right h4.le).symm⟩
      rw [min_eq_right h4.le]
      exact fun hE => h5 ((tmod_two_eq_zero_iff_even b).mpr hE)
  · rintro ⟨h1, h2, h3⟩
    unfold validate_twowire
    rcases lt_trichotomy a b with hab | hab | hab
    · rw [if_neg (by omega), if_pos hab,
        if_neg (fun h0 => (by rwa [min_eq_left hab.le] at h2 :
          ¬ Even a) ((tmod_two_eq_zero_iff_even a).mp h0))]
      rw [h3, min_eq_left hab.le]
    · omega
    · rw [if_neg (by omega), if_neg (by omega), if_pos hab,
        if_neg (fun h0 => (by rwa [min_eq_right hab.le] at h2 :
          ¬ Even b) ((tmod_two_eq_zero_iff_even b).mp h0))]
      rw [h3, min_eq_right hab.le]

/-- C2 witness: the amended resolution accepts the pair (5,6) with
canonical port 5. -/
theorem spec_c2_witness : validate_twowire 5 6 = .ok 5 :=
  (spec_c2_twowire_resolution.1 5 6 5).mpr
    ⟨by decide,
     by
       rw [show min (5 : Int) 6 = 5 by norm_num]
       rintro ⟨k, hk⟩
       omega,
     by norm_num⟩

/-- C3: code evaluation at the failing input.  After
`adi_encoder_init 3 4 true` the returned handle is 1; `adi_encoder_get`
on that handle fails with `PROS_ERR` instead of returning the negated
raw value; the negation behaviour (reverse true gives `-raw`, reverse
false gives `raw`) only appears at the canonical port 3. -/
theorem spec_c3_encoder_reverse_handle :
    (adi_encoder_init 3 4 true sVal55).1 = 1 ∧
    (adi_encoder_get (adi_encoder_init 3 4 true sVal55).1
      (adi_encoder_init 3 4 true sVal55).2).1 = PROS_ERR ∧
    PROS_ERR ≠ (-55 : Int) ∧
    (adi_encoder_get 3 (adi_encoder_init 3 4 true sVal55).2).1 = -55 ∧
    (adi_encoder_get 3 (adi_encoder_init 3 4 false sVal55).2).1 = 55 :=
  ⟨by decide, by decide, by decide, by decide, by decide⟩

/-- C4 counterexample: over the constant stream of value -1 on an
analog-configured port, the unsigned 32-bit accumulation wraps: the
call returns 8388607 rather than -1 and stores 134217712 rather than
-16. -/
theorem spec_c4_counterexample :
    (adi_analog_calibrate 1 sNegStream).1 = 8388607 ∧ (8388607 : Int) ≠ -1 ∧
    ((adi_analog_calibrate 1 sNegStream).2).analog_calib 0 = 134217712 ∧
    (134217712 : Int) ≠ 16 * (-1) := by
  obtain ⟨r1, r2, -⟩ :=
    adi_analog_calibrate_const 1 0 (-1) sNegStream (by decide) (by decide) (fun _ => rfl)
  rw [show ((1 : Int) - 1) = 0 by norm_num] at r2
  refine ⟨?_, by decide, ?_, by decide⟩
  · rw [r1]; decide
  · rw [r2]; decide

/-- C4 (amended): on an analog-configured port, `adi_analog_calibrate`
accumulates 512 samples into an unsigned 32-bit sum, stores
`(sum+16) >> 5` at registry index `port - 1` and returns
`(sum+256) >> 9`; for a constant raw stream of value V with
`0 ≤ V ≤ 2^23 - 1` it stores exactly `16·V` and returns exactly `V`
(negative or larger values wrap modulo 2^32). -/
theorem spec_c4_calibrate_constant (port idx V : Int) (s : AdiState)
    (hT : transform_adi_port port = some idx)
    (hC : analog_config_ok (some (s.config idx.toNat)) = true)
    (hV : ∀ t, s.value idx.toNat t = V)
    (h0 : 0 ≤ V) (h1 : V ≤ 8388607) :
    (adi_analog_calibrate port s).1 = V ∧
    ((adi_analog_calibrate port s).2).analog_calib (port - 1) = 16 * V := by
  obtain ⟨r1, r2, -⟩ := adi_analog_calibrate_const port idx V s hT hC hV
  have hu : u32ofInt V = V.toNat := by
    unfold u32ofInt
    rw [show ((UINT32_MOD : Nat) : Int) = (4294967296 : Int) by norm_num [UINT32_MOD]]
    rw [Int.emod_eq_of_lt h0 (by omega)]
  rw [hu] at r1 r2
  constructor
  · rw [r1]
    unfold UINT32_MOD
    omega
  · rw [r2]
    unfold UINT32_MOD
    omega

/-- C4 witness: port 1 configured analog-in with constant stream 5:
the call returns 5 and stores 80 at registry index 0. -/
theorem spec_c4_witness : (adi_analog_calibrate 1 sAnalog).1 = 5 ∧
    ((adi_analog_calibrate 1 sAnalog).2).analog_calib (1 - 1) = 16 * 5 :=
  spec_c4_calibrate_constant 1 0 5 sAnalog (by decide) (by decide) (fun _ => rfl)
    (by decide) (by decide)

/-- C9: code evaluation at the failing input.  The analog validator
accepts the letter port identifier 97 and the calibration runs, but
the registry entry written is at raw index 97 - 1 = 96, outside the
8-entry array, and differs from the entry (index 0) written for the
equivalent numeric identifier 1 even though both translate to hardware
index 0. -/
theorem spec_c9_analog_registry_bounds :
    (adi_analog_calibrate 97 sAnalog).1 = 5 ∧
    ((adi_analog_calibrate 97 sAnalog).2).analog_calib 96 = 80 ∧
    ¬ ((96 : Int) < (NUM_ADI_PORTS : Int)) ∧
    ((adi_analog_calibrate 97 sAnalog).2).analog_calib 0 = 0 ∧
    ((adi_analog_calibrate 1 sAnalog).2).analog_calib 0 = 80 ∧
    transform_adi_port 97 = transform_adi_port 1 := by
  obtain ⟨r1, r2, r3⟩ :=
    adi_analog_calibrate_const 97 0 5 sAnalog (by decide) (by decide) (fun _ => rfl)
  obtain ⟨-, q2, -⟩ :=
    adi_analog_calibrate_const 1 0 5 sAnalog (by decide) (by decide) (fun _ => rfl)
  rw [show ((97 : Int) - 1) = 96 by norm_num] at r2
  rw [show ((1 : Int) - 1) = 0 by norm_num] at q2
  refine ⟨?_, ?_, by decide, ?_, ?_, by decide⟩
  · rw [r1]; decide
  · rw [r2]; decide
  · rw [r3 0 (by norm_num)]; rfl
  · rw [q2]; decide

/-- C5 counterexample: `adi_digital_write` on a valid port whose
configuration is analog-in fails with the sentinel but leaves the
last-error classification untouched (errno stays 0, not EINVAL),
contradicting the claim that every failing operation sets the
classification. -/
theorem spec_c5_counterexample :
    (adi_digital_write 1 true sAnalog).1 = PROS_ERR ∧
    ((adi_digital_write 1 true sAnalog).2).errno = 0 ∧
    (0 : Nat) ≠ EINVAL :=
  ⟨by decide, by decide, by decide⟩

/-- C5 (amended): every failing operation returns the sentinel, but
only the analog/digital-in/motor family validators, port translation
and the non-adjacent two-wire check set `errno = EINVAL`; exact-type
mismatches (digitalWrite, encoder and ultrasonic get/reset/shutdown)
and the equal-ports and even-canonical two-wire failures return the
sentinel with the state (including `errno`) unchanged. -/
theorem spec_c5_errno_paths (s : AdiState) (enc idx a b p c d : Int) (r : Bool)
    (h1 : transform_adi_port enc = some idx)
    (h2 : s.config idx.toNat = E_ADI_ANALOG_IN)
    (h3 : (a - b).natAbs = 1) (h4 : Even (min a b))
    (h5 : 1 < (c - d).natAbs) :
    adi_digital_write enc true s = (PROS_ERR, s) ∧
    adi_encoder_get enc s = (PROS_ERR, s) ∧
    adi_encoder_reset enc s = (PROS_ERR, s) ∧
    adi_encoder_shutdown enc s = (PROS_ERR, s) ∧
    adi_ultrasonic_get enc s = (PROS_ERR, s) ∧
    adi_ultrasonic_shutdown enc s = (PROS_ERR, s) ∧
    adi_encoder_init p p r s = (PROS_ERR, s) ∧
    adi_ultrasonic_init p p s = (PROS_ERR, s) ∧
    adi_encoder_init a b r s = (PROS_ERR, s) ∧
    adi_digital_read enc s = (PROS_ERR, setEinval s) ∧
    adi_encoder_init c d r s = (PROS_ERR, setEinval s) := by
  have hg : adi_port_config_get enc s = (some E_ADI_ANALOG_IN, s) := by
    simp [adi_port_config_get, h1, h2]
  have heq : validate_twowire p p = .err_equal := by
    unfold validate_twowire
    rw [if_neg (by omega), if_neg (by omega), if_neg (by omega)]
  have hpar : validate_twowire a b = .err_parity := by
    unfold validate_twowire
    rcases lt_trichotomy a b with hab | hab | hab
    · rw [if_neg (by omega), if_pos hab,
        if_pos ((tmod_two_eq_zero_iff_even a).mpr (by rwa [min_eq_left hab.le] at h4))]
    · exact absurd h3 (by omega)
    · rw [if_neg (by omega), if_neg (by omega), if_pos hab,
        if_pos ((tmod_two_eq_zero_iff_even b).mpr (by rwa [min_eq_right hab.le] at h4))]
  have hna : validate_twowire c d = .err_nonadjacent := by
    unfold validate_twowire
    rw [if_pos h5]
  refine ⟨?_, ?_, ?_, ?_, ?_, ?_, ?_, ?_, ?_, ?_, ?_⟩
  · simp [adi_digital_write, hg]
  · simp [adi_encoder_get, hg]
  · simp [adi_encoder_reset, hg]
  · simp [adi_encoder_shutdown, hg]
  · simp [adi_ultrasonic_get, hg]
  · simp [adi_ultrasonic_shutdown, hg]
  · simp [adi_encoder_init, heq]
  · simp [adi_ultrasonic_init, heq]
  · simp [adi_encoder_init, hpar]
  · simp [adi_digital_read, hg, digital_in_config_ok]
  · simp [adi_encoder_init, hna]

/-- C5 witness: instantiation at port 1 configured analog-in, equal
pair (5,5), even pair (2,3) and non-adjacent pair (1,3). -/
theorem spec_c5_witness :
    adi_digital_write 1 true sAnalog = (PROS_ERR, sAnalog) ∧
    adi_encoder_init 2 3 false sAnalog = (PROS_ERR, sAnalog) :=
  ⟨(spec_c5_errno_paths sAnalog 1 0 2 3 5 1 3 false (by decide) (by decide) (by decide)
      ⟨1, by norm_num⟩ (by decide)).1,
   (spec_c5_errno_paths sAnalog 1 0 2 3 5 1 3 false (by decide) (by decide) (by decide)
      ⟨1, by norm_num⟩ (by decide)).2.2.2.2.2.2.2.2.1⟩

/-- C6: any operation whose validation fails (wrong configuration for
the operation, a two-wire constraint violation, or an unrecognized
pin mode) returns the sentinel and leaves the state unchanged except
possibly for recording `EINVAL`: no hardware value read or write is
performed (the read/write logs are part of the state) and no
calibration offset or reversal flag is modified. -/
theorem spec_c6_validation_failure_no_side_effect (op : adi_op) (s : AdiState)
    (h : op_validation_fails op s = true) :
    (run_op op s).1 = PROS_ERR ∧
    ((run_op op s).2 = s ∨ (run_op op s).2 = setEinval s) := by
  cases op with
  | op_analog_calibrate port =>
      replace h : analog_config_ok (adi_port_config_get port s).1 = false := by
        simpa [op_validation_fails] using h
      simp only [run_op, adi_analog_calibrate, h, Bool.false_eq_true, if_false]
      refine ⟨by first | rfl | trivial, ?_⟩
      rcases config_get_snd port s with h2 | h2 <;> rw [h2]
      · exact Or.inr rfl
      · exact Or.inr (setEinval_setEinval s)
  | op_analog_read port =>
      replace h : analog_config_ok (adi_port_config_get port s).1 = false := by
        simpa [op_validation_fails] using h
      simp only [run_op, adi_analog_read, h, Bool.false_eq_true, if_false]
      refine ⟨by first | rfl | trivial, ?_⟩
      rcases config_get_snd port s with h2 | h2 <;> rw [h2]
      · exact Or.inr rfl
      · exact Or.inr (setEinval_setEinval s)
  | op_analog_read_calibrated port =>
      replace h : analog_config_ok (adi_port_config_get port s).1 = false := by
        simpa [op_validation_fails] using h
      simp only [run_op, adi_analog_read_calibrated, h, Bool.false_eq_true, if_false]
      refine ⟨by first | rfl | trivial, ?_⟩
      rcases config_get_snd port s with h2 | h2 <;> rw [h2]
      · exact Or.inr rfl
      · exact Or.inr (setEinval_setEinval s)
  | op_analog_read_calibrated_HR port =>
      replace h : analog_config_ok (adi_port_config_get port s).1 = false := by
        simpa [op_validation_fails] using h
      simp only [run_op, adi_analog_read_calibrated_HR, h, Bool.false_eq_true, if_false]
      refine ⟨by first | rfl | trivial, ?_⟩
      rcases config_get_snd port s with h2 | h2 <;> rw [h2]
      · exact Or.inr rfl
      · exact Or.inr (setEinval_setEinval s)
  | op_digital_read port =>
      replace h : digital_in_config_ok (adi_port_config_get port s).1 = false := by
        simpa [op_validation_fails] using h
      simp only [run_op, adi_digital_read, h, Bool.false_eq_true, if_false]
      refine ⟨by first | rfl | trivial, ?_⟩
      rcases config_get_snd port s with h2 | h2 <;> rw [h2]
      · exact Or.inr rfl
      · exact Or.inr (setEinval_setEinval s)
  | op_digital_write port value =>
      replace h : ¬ (adi_port_config_get port s).1 = some E_ADI_DIGITAL_OUT := by
        simpa [op_validation_fails] using h
      simp only [run_op, adi_digital_write, if_neg h]
      refine ⟨by first | rfl | trivial, ?_⟩
      rcases config_get_snd port s with h2 | h2 <;> rw [h2]
      · exact Or.inl rfl
      · exact Or.inr rfl
  | op_pin_mode port mode =>
      replace h : ¬ mode = INPUT ∧ ¬ mode = OUTPUT ∧
          ¬ mode = INPUT_ANALOG ∧ ¬ mode = OUTPUT_ANALOG := by
        simpa [op_validation_fails, not_or] using h
      obtain ⟨h1, h2, h3, h4⟩ := h
      simp only [run_op, adi_pin_mode, if_neg h1, if_neg h2, if_neg h3, if_neg h4]
      exact ⟨by first | rfl | trivial, Or.inr (by first | rfl | trivial)⟩
  | op_motor_set port speed =>
      replace h : motor_config_ok (adi_port_config_get port s).1 = false := by
        simpa [op_validation_fails] using h
      simp only [run_op, adi_motor_set, h, Bool.false_eq_true, if_false]
      refine ⟨by first | rfl | trivial, ?_⟩
      rcases config_get_snd port s with h2 | h2 <;> rw [h2]
      · exact Or.inr rfl
      · exact Or.inr (setEinval_setEinval s)
  | op_motor_get port =>
      replace h : motor_config_ok (adi_port_config_get port s).1 = false := by
        simpa [op_validation_fails] using h
      simp only [run_op, adi_motor_get, h, Bool.false_eq_true, if_false]
      refine ⟨by first | rfl | trivial, ?_⟩
      rcases config_get_snd port s with h2 | h2 <;> rw [h2]
      · exact Or.inr rfl
      · exact Or.inr (setEinval_setEinval s)
  | op_motor_stop port =>
      replace h : motor_config_ok (adi_port_config_get port s).1 = false := by
        simpa [op_validation_fails] using h
      simp only [run_op, adi_motor_stop, h, Bool.false_eq_true, if_false]
      refine ⟨by first | rfl | trivial, ?_⟩
      rcases config_get_snd port s with h2 | h2 <;> rw [h2]
      · exact Or.inr rfl
      · exact Or.inr (setEinval_setEinval s)
  | op_encoder_init pt pb reverse =>
      simp only [run_op, adi_encoder_init]
      simp only [op_validation_fails] at h
      cases hvt : validate_twowire pt pb <;> rw [hvt] at h <;> simp at h <;> simp [hvt]
  | op_encoder_get enc =>
      replace h : ¬ (adi_port_config_get enc s).1 = some E_ADI_LEGACY_ENCODER := by
        simpa [op_validation_fails] using h
      simp only [run_op, adi_encoder_get, if_neg h]
      refine ⟨by first | rfl | trivial, ?_⟩
      rcases config_get_snd enc s with h2 | h2 <;> rw [h2]
      · exact Or.inl rfl
      · exact Or.inr rfl
  | op_encoder_reset enc =>
      replace h : ¬ (adi_port_config_get enc s).1 = some E_ADI_LEGACY_ENCODER := by
        simpa [op_validation_fails] using h
      simp only [run_op, adi_encoder_reset, if_neg h]
      refine ⟨by first | rfl | trivial, ?_⟩
      rcases config_get_snd enc s with h2 | h2 <;> rw [h2]
      · exact Or.inl rfl
      · exact Or.inr rfl
  | op_encoder_shutdown enc =>
      replace h : ¬ (adi_port_config_get enc s).1 = some E_ADI_LEGACY_ENCODER := by
        simpa [op_validation_fails] using h
      simp only [run_op, adi_encoder_shutdown, if_neg h]
      refine ⟨by first | rfl | trivial, ?_⟩
      rcases config_get_snd enc s with h2 | h2 <;> rw [h2]
      · exact Or.inl rfl
      · exact Or.inr rfl
  | op_ultrasonic_init pe pp =>
      simp only [run_op, adi_ultrasonic_init]
      simp only [op_validation_fails] at h
      cases hvt : validate_twowire pe pp <;> rw [hvt] at h <;> simp at h <;>
        simp [hvt, h]
  | op_ultrasonic_get ult =>
      replace h : ¬ (adi_port_config_get ult s).1 = some E_ADI_LEGACY_ULTRASONIC := by
        simpa [op_validation_fails] using h
      simp only [run_op, adi_ultrasonic_get, if_neg h]
      refine ⟨by first | rfl | trivial, ?_⟩
      rcases config_get_snd ult s with h2 | h2 <;> rw [h2]
      · exact Or.inl rfl
      · exact Or.inr rfl
  | op_ultrasonic_shutdown ult =>
      replace h : ¬ (adi_port_config_get ult s).1 = some E_ADI_LEGACY_ULTRASONIC := by
        simpa [op_validation_fails] using h
      simp only [run_op, adi_ultrasonic_shutdown, if_neg h]
      refine ⟨by first | rfl | trivial, ?_⟩
      rcases config_get_snd ult s with h2 | h2 <;> rw [h2]
      · exact Or.inl rfl
      · exact Or.inr rfl

/-- C6 witness: digitalWrite on port 1 configured analog-in fails with
the sentinel and state intact up to the error classification. -/
theorem spec_c6_witness :
    (run_op (adi_op.op_digital_write 1 true) sAnalog).1 = PROS_ERR ∧
    ((run_op (adi_op.op_digital_write 1 true) sAnalog).2 = sAnalog ∨
     (run_op (adi_op.op_digital_write 1 true) sAnalog).2 = setEinval sAnalog) :=
  spec_c6_validation_failure_no_side_effect (adi_op.op_digital_write 1 true) sAnalog
    (by decide)

/-- C7: the port transform maps the numeric identifiers 1..8 and the
letter identifiers 97..104 and 65..72 (the character codes of
`'a'..'h'` and `'A'..'H'`) to the same 0-based indices 0..7, and
every identifier outside those three ranges fails: the transform
rejects it and the operations using it return the sentinel with
`errno = EINVAL`. -/
theorem spec_c7_port_addressing :
    (∀ k : Nat, k < 8 →
      transform_adi_port ((k : Int) + 1) = some (k : Int) ∧
      transform_adi_port (97 + (k : Int)) = some (k : Int) ∧
      transform_adi_port (65 + (k : Int)) = some (k : Int)) ∧
    (∀ p : Int, ¬ (1 ≤ p ∧ p ≤ 8) → ¬ (65 ≤ p ∧ p ≤ 72) → ¬ (97 ≤ p ∧ p ≤ 104) →
      transform_adi_port p = none ∧
      (∀ s ty, adi_port_config_set p ty s = (PROS_ERR, setEinval s)) ∧
      (∀ s, adi_value_get p s = (PROS_ERR, setEinval s))) := by
  constructor
  · intro k hk
    interval_cases k <;> exact ⟨by decide, by decide, by decide⟩
  · intro p hp1 hp2 hp3
    have ht : transform_adi_port p = none := by
      simp only [transform_adi_port]
      rw [if_neg hp3, if_neg hp2, if_pos (by omega)]
    exact ⟨ht, fun s ty => by simp [adi_port_config_set, ht],
      fun s => by simp [adi_value_get, ht]⟩

/-- C7 witness: port 3, letter 99 and letter 67 agree on index 2, and
the out-of-range identifier 0 is rejected. -/
theorem spec_c7_witness :
    transform_adi_port 3 = some 2 ∧ transform_adi_port 99 = some 2 ∧
    transform_adi_port 67 = some 2 ∧ transform_adi_port 0 = none := by
  have h1 := spec_c7_port_addressing.1 2 (by norm_num)
  have h2 := spec_c7_port_addressing.2 0 (by norm_num) (by norm_num) (by norm_num)
  exact ⟨by exact_mod_cast h1.1, by exact_mod_cast h1.2.1, by exact_mod_cast h1.2.2, h2.1⟩

/-- C8 counterexample: motorSet with speed 200 on a motor-configured
port writes the clamped value 127 to hardware but returns 1, the
facade's success code, not the written value. -/
theorem spec_c8_counterexample :
    (adi_motor_set 1 200 sMotor).1 = 1 ∧
    ((adi_motor_set 1 200 sMotor).2).valueSets = [(0, 127)] ∧
    (1 : Int) ≠ 127 :=
  ⟨by decide, by decide, by decide⟩

/-- C8 (amended): motorSet on a motor-configured port clamps the
requested speed to [-128, 127] (200 clamps to 127, -200 to -128, an
in-range speed is unchanged), writes the clamped value to hardware,
and on success returns 1. -/
theorem spec_c8_motor_set (s : AdiState) (port idx speed : Int)
    (hT : transform_adi_port port = some idx)
    (hM : motor_config_ok (some (s.config idx.toNat)) = true) :
    adi_motor_set port speed s =
      (1, { s with valueSets := s.valueSets ++ [(idx.toNat, clamp_speed speed)] }) ∧
    clamp_speed 200 = 127 ∧ clamp_speed (-200) = -128 ∧
    (ADI_MOTOR_MIN_SPEED ≤ speed → speed ≤ ADI_MOTOR_MAX_SPEED →
      clamp_speed speed = speed) := by
  have hg : adi_port_config_get port s = (some (s.config idx.toNat), s) := by
    simp [adi_port_config_get, hT]
  refine ⟨?_, by decide, by decide, ?_⟩
  · simp [adi_motor_set, hg, hM, adi_value_set, hT]
  · intro hl hu
    unfold ADI_MOTOR_MAX_SPEED at hu
    unfold ADI_MOTOR_MIN_SPEED at hl
    unfold clamp_speed ADI_MOTOR_MAX_SPEED ADI_MOTOR_MIN_SPEED
    rw [if_neg (by omega), if_neg (by omega)]

/-- C8 witness: speed -200 on motor-configured port 1 is written as the
clamped value and the call returns 1. -/
theorem spec_c8_witness :
    adi_motor_set 1 (-200) sMotor =
      (1, { sMotor with
        valueSets := sMotor.valueSets ++ [((0 : Int).toNat, clamp_speed (-200))] }) :=
  (spec_c8_motor_set sMotor 1 0 (-200) (by decide) (by decide)).1

/-- C10: for each of the four recognized modes, pinMode returns 1 for
every port argument — a failure of the underlying configuration write
is not propagated. -/
theorem spec_c10_pin_mode (s : AdiState) (port : Int) (mode : Nat)
    (h : mode = INPUT ∨ mode = OUTPUT ∨ mode = INPUT_ANALOG ∨ mode = OUTPUT_ANALOG) :
    (adi_pin_mode port mode s).1 = 1 := by
  rcases h with h | h | h | h <;> subst h <;>
    simp [adi_pin_mode, INPUT, OUTPUT, INPUT_ANALOG, OUTPUT_ANALOG]

/-- C10 witness: the out-of-range port 200 makes the configuration
write fail, yet pinMode still reports 1. -/
theorem spec_c10_witness :
    (adi_pin_mode 200 INPUT sBase).1 = 1 ∧
    (adi_port_config_set 200 E_ADI_DIGITAL_IN sBase).1 = PROS_ERR :=
  ⟨spec_c10_pin_mode sBase 200 INPUT (Or.inl rfl), by decide⟩
